import Mathlib

/-!
Verification of the VanillaScope zoom widget (src/unnamed/part_000, the
complete typed source; src/zoom.ts is an earlier draft of the same file).

Numbers read from browser layout (offsetWidth, pageX, scroll offsets) and
the arithmetic of `createZoom` are embedded over the rationals; JavaScript
division by zero, which yields a non-finite number (Infinity or NaN), is
tracked by an explicit Option-returning variant of `init`.
-/

namespace Zoom

/-- Page-relative offset of an element, as returned by getOffset:
top/left of the bounding rect adjusted by scroll and root client edges. -/
structure PageOffset where
  top : ℚ
  left : ℚ
  deriving DecidableEq, Repr

/-- Layout facts the browser reports at the moment init runs: the target
and source offsetWidth/offsetHeight, whether source === target, the
overlay image width/height (img.width, img.height), and the source page
offset computed by getOffset. -/
structure Layout where
  targetOffsetWidth : ℚ
  targetOffsetHeight : ℚ
  sourceOffsetWidth : ℚ
  sourceOffsetHeight : ℚ
  sourceIsTarget : Bool
  imgWidth : ℚ
  imgHeight : ℚ
  sourceOffset : PageOffset
  deriving DecidableEq, Repr

/-- The closure variables of createZoom that init assigns and move reads.
ratioX and ratioY are the source variables xRatio and yRatio. -/
structure ZoomState where
  targetWidth : ℚ
  targetHeight : ℚ
  sourceWidth : ℚ
  sourceHeight : ℚ
  ratioX : ℚ
  ratioY : ℚ
  offset : PageOffset
  deriving DecidableEq, Repr

/-- Width the overlay styling in createZoom gives the image:
img.width * magnify. -/
def imgDisplayWidth (naturalWidth magnify : ℚ) : ℚ :=
  naturalWidth * magnify

/-- The init closure of createZoom. It assigns every state variable from
the current layout, ignoring the previous state:
targetWidth/Height from target offset dimensions; sourceWidth/Height equal
to the target dimensions when source === target, else the source offset
dimensions; xRatio = (img.width - targetWidth) / sourceWidth and yRatio
analogously; offset = getOffset(source). -/
def init (l : Layout) (_prev : ZoomState) : ZoomState :=
  let targetWidth := l.targetOffsetWidth
  let targetHeight := l.targetOffsetHeight
  let sourceWidth := if l.sourceIsTarget then targetWidth else l.sourceOffsetWidth
  let sourceHeight := if l.sourceIsTarget then targetHeight else l.sourceOffsetHeight
  { targetWidth := targetWidth
    targetHeight := targetHeight
    sourceWidth := sourceWidth
    sourceHeight := sourceHeight
    ratioX := (l.imgWidth - targetWidth) / sourceWidth
    ratioY := (l.imgHeight - targetHeight) / sourceHeight
    offset := l.sourceOffset }

/-- Effective source width selected by init (target width when
source === target). -/
def effSourceWidth (l : Layout) : ℚ :=
  if l.sourceIsTarget then l.targetOffsetWidth else l.sourceOffsetWidth

/-- Effective source height selected by init. -/
def effSourceHeight (l : Layout) : ℚ :=
  if l.sourceIsTarget then l.targetOffsetHeight else l.sourceOffsetHeight

/-- Checked variant of init that mirrors its arithmetic step by step and
returns none exactly when one of its two divisions has a zero divisor
(in JavaScript such a division yields Infinity or NaN rather than a
finite ratio). The source has no such guard; this variant makes the
implicit partiality explicit. -/
def initChecked (l : Layout) : Option ZoomState :=
  let targetWidth := l.targetOffsetWidth
  let targetHeight := l.targetOffsetHeight
  let sourceWidth := if l.sourceIsTarget then targetWidth else l.sourceOffsetWidth
  let sourceHeight := if l.sourceIsTarget then targetHeight else l.sourceOffsetHeight
  if sourceWidth = 0 then none
  else if sourceHeight = 0 then none
  else some
    { targetWidth := targetWidth
      targetHeight := targetHeight
      sourceWidth := sourceWidth
      sourceHeight := sourceHeight
      ratioX := (l.imgWidth - targetWidth) / sourceWidth
      ratioY := (l.imgHeight - targetHeight) / sourceHeight
      offset := l.sourceOffset }

/-- A pointer or touch coordinate in page space (pageX/pageY). -/
structure Pointer where
  pageX : ℚ
  pageY : ℚ
  deriving DecidableEq, Repr

/-- The pixel values move assigns to img.style.left and img.style.top. -/
structure ImgPos where
  left : ℚ
  top : ℚ
  deriving DecidableEq, Repr

/-- The move closure of createZoom: local position = page position minus
the stored source offset, clamped by max(min(v, sourceDimension), 0),
then img.style.left = left * -xRatio and img.style.top = top * -yRatio.
move performs no division. -/
def move (s : ZoomState) (e : Pointer) : ImgPos :=
  let left := e.pageX - s.offset.left
  let top := e.pageY - s.offset.top
  let left := max (min left s.sourceWidth) 0
  let top := max (min top s.sourceHeight) 0
  { left := left * -s.ratioX
    top := top * -s.ratioY }

/-- Clamp of x into the interval from lo to hi, as the spec words it. -/
def clampQ (x lo hi : ℚ) : ℚ :=
  min (max x lo) hi

/-! ## fadeTo -/

/-- Visibility-relevant element state fadeTo reads and writes: whether
computed display is none, and the current opacity. -/
structure ElemVis where
  displayNone : Bool
  opacity : ℚ
  deriving DecidableEq, Repr

/-- Result of a fadeTo call run to completion: the element state after the
onfinish handler, and whether the optional callback was invoked. -/
structure FadeOutcome where
  el : ElemVis
  callbackInvoked : Bool
  deriving DecidableEq, Repr

/-- First step of fadeTo: if the element is hidden (computed display none),
clear style.display so the element becomes visible before the animation. -/
def fadeToShown (el : ElemVis) : ElemVis :=
  if el.displayNone then { el with displayNone := false } else el

/-- Opacity along the animation: easing linear, fill both, one iteration,
from the starting opacity to the target over duration d (for t between 0
and d). -/
def fadeOpacityAt (startOp targetOp d t : ℚ) : ℚ :=
  startOp + (targetOp - startOp) * (t / d)

/-- fadeTo run to completion: unhide if hidden, animate opacity to the
target (fill both leaves it at the target), then the onfinish handler sets
display none exactly when the target opacity is 0 and invokes the callback
when one was passed. -/
def fadeToSettle (el : ElemVis) (opacity : ℚ) (hasCallback : Bool) : FadeOutcome :=
  let shown := fadeToShown el
  let animated : ElemVis := { shown with opacity := opacity }
  let finished := if opacity = 0 then { animated with displayNone := true } else animated
  { el := finished, callbackInvoked := hasCallback }

/-! ## URL resolution (zoomImage) -/

/-- JavaScript truthiness of a string: the empty string is falsy. -/
def strTruthy (s : String) : Bool :=
  s ≠ ""

/-- JavaScript truthiness of a string-or-null value (getAttribute result,
or an optional settings field). -/
def optTruthy : Option String → Bool
  | none => false
  | some s => strTruthy s

/-- The descendant image element found by source.querySelector, with the
three fields the binder reads: the data-src attribute (null when absent),
currentSrc and src (always strings, possibly empty). -/
structure SrcElement where
  dataSrc : Option String
  currentSrc : String
  src : String
  deriving DecidableEq, Repr

/-- JavaScript a || b on strings: b when a is falsy (empty). -/
def jsOrStr (a b : String) : String :=
  if strTruthy a then a else b

/-- Value of the chain
srcElement.getAttribute(data-src) || srcElement.currentSrc || srcElement.src:
null from getAttribute is falsy, so it behaves as the empty string here. -/
def imgUrlChain (el : SrcElement) : String :=
  jsOrStr (el.dataSrc.getD "") (jsOrStr el.currentSrc el.src)

/-- URL resolution of zoomImage: when settings.url is falsy and a
descendant image exists, settings.url is assigned the chain value; if
settings.url is still falsy afterwards the binder returns undefined.
Returns the url the binder proceeds with, or none for the silent no-op. -/
def resolveUrl (optUrl : Option String) (srcElement : Option SrcElement) : Option String :=
  if optTruthy optUrl then optUrl
  else
    match srcElement with
    | some el =>
      let u := imgUrlChain el
      if strTruthy u then some u else none
    | none => none

/-- Observable result of the zoomImage binder with respect to wiring: it
either returns undefined before attaching the load listener or setting
img.src (noop), or proceeds and sets img.src to the resolved url with the
load listener attached (bound). The overlay is appended to the target only
inside the load handler, so a noop creates no overlay. -/
inductive BindResult where
  | noop
  | bound (url : String)
  deriving DecidableEq, Repr

/-- The url-dependent control flow of zoomImage: return undefined when no
url resolves, else wire the load listener and set img.src. -/
def zoomImageBind (optUrl : Option String) (srcElement : Option SrcElement) : BindResult :=
  match resolveUrl optUrl srcElement with
  | none => .noop
  | some u => .bound u

/-! ## Trigger modes (binder state machines)

The load handler closes over two booleans, clicked and touched, and the
helpers start (init + move + fadeTo to opacity 1) and stop (fadeTo to
opacity 0). The state machines below record those booleans together with
the observable effects of each handler: whether the document-wide
mousemove tracker is attached, whether the overlay is visible (faded in),
and counters of start/stop/move calls. -/

/-- Which of the start/stop helpers a handler invocation called. -/
inductive ZoomCall where
  | started
  | stopped
  deriving DecidableEq, Repr

/-- State of a toggle-mode binding: the clicked boolean, whether the
document mousemove tracker is attached, and whether the overlay is
visible. -/
structure ToggleState where
  clicked : Bool
  trackerAttached : Bool
  visible : Bool
  deriving DecidableEq, Repr

/-- The toggle-mode click handler: if clicked then stop and detach the
document mousemove tracker, else start and attach it; finally
clicked = !clicked. Also reports which helper ran. -/
def toggleClick (s : ToggleState) : ToggleState × ZoomCall :=
  if s.clicked then
    ({ clicked := !s.clicked, trackerAttached := false, visible := false }, .stopped)
  else
    ({ clicked := !s.clicked, trackerAttached := true, visible := true }, .started)

/-- Binding state right after the load handler wired toggle mode: not
clicked, no tracker, overlay transparent. -/
def toggleInitial : ToggleState :=
  { clicked := false, trackerAttached := false, visible := false }

/-- State after n clicks on the source in toggle mode. -/
def toggleRun : ℕ → ToggleState
  | 0 => toggleInitial
  | n + 1 => (toggleClick (toggleRun n)).1

/-! ## Click mode -/

/-- State of a click-mode binding: the clicked boolean, the document
mousemove tracker, whether the one-shot document click handler is armed,
overlay visibility, and call counters for start and stop. -/
structure ClickModeState where
  clicked : Bool
  trackerAttached : Bool
  docOneShotArmed : Bool
  visible : Bool
  startCalls : ℕ
  stopCalls : ℕ
  deriving DecidableEq, Repr

/-- Binding state right after the load handler wired click mode. -/
def clickInitial : ClickModeState :=
  { clicked := false, trackerAttached := false, docOneShotArmed := false,
    visible := false, startCalls := 0, stopCalls := 0 }

/-- The source click handler in click mode. If clicked it returns at once,
letting the event bubble; else it sets clicked, calls start, attaches the
document mousemove tracker, arms the one-shot document click handler, and
calls stopPropagation (so this very click does not bubble to the handler
it just armed). The boolean result records whether propagation was
stopped. -/
def clickSourceHandler (s : ClickModeState) : ClickModeState × Bool :=
  if s.clicked then (s, false)
  else
    ({ s with clicked := true,
              visible := true,
              startCalls := s.startCalls + 1,
              trackerAttached := true,
              docOneShotArmed := true }, true)

/-- The one-shot document click handler: when armed, it stops, clears
clicked, detaches the document mousemove tracker, and disarms itself. -/
def clickDocHandler (s : ClickModeState) : ClickModeState :=
  if s.docOneShotArmed then
    { s with visible := false,
             stopCalls := s.stopCalls + 1,
             clicked := false,
             trackerAttached := false,
             docOneShotArmed := false }
  else s

/-- Dispatch of one click event on the source: the source handler runs
first; unless it stopped propagation, the event bubbles to the document
and the one-shot handler (if armed) runs. -/
def dispatchSourceClick (s : ClickModeState) : ClickModeState :=
  let (s1, stopped) := clickSourceHandler s
  if stopped then s1 else clickDocHandler s1

/-! ## Touch fallback -/

/-- The trigger modes the source dispatches on (the toggle-drag branch is
dead jQuery code kept for faithfulness to the source file). -/
inductive Mode where
  | mouseover
  | grab
  | click
  | toggle
  | toggleDrag
  deriving DecidableEq, Repr

/-- State of the touch fallback: the touched and clicked booleans,
overlay visibility, and counters of start/stop/move calls. -/
structure TouchState where
  touched : Bool
  clicked : Bool
  visible : Bool
  startCalls : ℕ
  stopCalls : ℕ
  moveCalls : ℕ
  deriving DecidableEq, Repr

/-- The touchstart handler: when the mode is click or toggle it returns
before doing anything (suppressed to avoid double-triggering); otherwise
it prevents default and toggles via touched — touched true means stop,
touched false means start. -/
def touchstart (mode : Mode) (s : TouchState) : TouchState :=
  if mode = .click ∨ mode = .toggle then s
  else if s.touched then
    { s with touched := false, visible := false, stopCalls := s.stopCalls + 1 }
  else
    { s with touched := true, visible := true, startCalls := s.startCalls + 1 }

/-- The touchmove handler: it returns unless touched or clicked, else
prevents default and calls move with the first touch point. -/
def touchmove (s : TouchState) : TouchState :=
  if !s.touched && !s.clicked then s
  else { s with moveCalls := s.moveCalls + 1 }

/-- The touchend handler: prevents default, and if touched it clears
touched and stops. -/
def touchend (s : TouchState) : TouchState :=
  if s.touched then
    { s with touched := false, visible := false, stopCalls := s.stopCalls + 1 }
  else s

/-! ## Target style mutation (createZoom setup) and the destroy path -/

/-- The two inline style fields setup mutates on the target container. -/
structure TargetStyle where
  position : String
  overflow : String
  deriving DecidableEq, Repr

/-- Inline style of the target after createZoom setup: position is kept
when the computed position is absolute or fixed, else forced to relative;
overflow is forced to hidden. -/
def setupTargetStyle (computedPosition : String) (_before : TargetStyle) : TargetStyle :=
  { position := if computedPosition = "absolute" ∨ computedPosition = "fixed"
      then computedPosition else "relative"
    overflow := "hidden" }

/-- What the destroy code assigns to the target style, modelled PAST its
reference to the undefined jQuery object (which in the real code raises a
ReferenceError before any restore runs): it destructures position and
overflow from the CURRENT inline style of the event target at destroy
time and assigns those to the target. Nothing is captured before setup. -/
def destroyRestore (eventTargetStyleNow : TargetStyle) (_target : TargetStyle) : TargetStyle :=
  { position := eventTargetStyleNow.position
    overflow := eventTargetStyleNow.overflow }

/-- A zero-filled state standing for the uninitialized closure variables
of createZoom before the first init call. -/
def initialZoomState : ZoomState :=
  { targetWidth := 0, targetHeight := 0, sourceWidth := 0, sourceHeight := 0,
    ratioX := 0, ratioY := 0, offset := { top := 0, left := 0 } }

/-- Layout of the worked scenario: a 100 by 100 source at page offset
(10, 10), source === target (the default target), target 100 by 100, and
an overlay of natural size 400 by 400 displayed at magnify 1. -/
def scenarioLayout : Layout :=
  { targetOffsetWidth := 100, targetOffsetHeight := 100,
    sourceOffsetWidth := 100, sourceOffsetHeight := 100,
    sourceIsTarget := true,
    imgWidth := imgDisplayWidth 400 1,
    imgHeight := imgDisplayWidth 400 1,
    sourceOffset := { top := 10, left := 10 } }

/-!
## Theorems
-/

/-- The code form max(min(x, hi), 0) agrees with clamp(x, 0, hi) whenever
the upper bound is nonnegative. -/
theorem maxmin_eq_clampQ (x hi : ℚ) (hhi : 0 ≤ hi) :
    max (min x hi) 0 = clampQ x 0 hi := by
  unfold clampQ
  simp only [min_def, max_def]
  split_ifs <;> linarith

/-- A product c * -r with c between 0 and sw lies between the extremes
attained at the two clamp edges, whatever the sign of r. -/
theorem mul_neg_between (c sw r : ℚ) (h0 : 0 ≤ c) (hc : c ≤ sw) :
    min 0 (sw * -r) ≤ c * -r ∧ c * -r ≤ max 0 (sw * -r) := by
  rcases le_total 0 r with hr | hr
  · refine ⟨min_le_iff.2 (Or.inr ?_), le_max_iff.2 (Or.inl ?_)⟩
    · nlinarith
    · nlinarith
  · refine ⟨min_le_iff.2 (Or.inl ?_), le_max_iff.2 (Or.inr ?_)⟩
    · nlinarith
    · nlinarith

/-- C1: for every pointer and every geometry snapshot s established by
init, move sets the overlay left to
-clamp(pageX - offset.left, 0, sourceWidth) * xRatio and the top
analogously; a pointer at or beyond an edge of the source bounds has its
clamped local position pinned to that edge (0 or the source dimension);
hence each computed overlay offset lies between the two edge values 0 and
-sourceDimension * ratio. The nonnegativity hypotheses record that
offsetWidth/offsetHeight are never negative. -/
theorem move_clamp_spec (l : Layout) (prev : ZoomState) (e : Pointer) (s : ZoomState)
    (_hs : s = init l prev) (hw : 0 ≤ s.sourceWidth) (hh : 0 ≤ s.sourceHeight) :
    (move s e).left = -clampQ (e.pageX - s.offset.left) 0 s.sourceWidth * s.ratioX ∧
    (move s e).top = -clampQ (e.pageY - s.offset.top) 0 s.sourceHeight * s.ratioY ∧
    (e.pageX - s.offset.left ≤ 0 →
      clampQ (e.pageX - s.offset.left) 0 s.sourceWidth = 0) ∧
    (s.sourceWidth ≤ e.pageX - s.offset.left →
      clampQ (e.pageX - s.offset.left) 0 s.sourceWidth = s.sourceWidth) ∧
    (e.pageY - s.offset.top ≤ 0 →
      clampQ (e.pageY - s.offset.top) 0 s.sourceHeight = 0) ∧
    (s.sourceHeight ≤ e.pageY - s.offset.top →
      clampQ (e.pageY - s.offset.top) 0 s.sourceHeight = s.sourceHeight) ∧
    min 0 (s.sourceWidth * -s.ratioX) ≤ (move s e).left ∧
    (move s e).left ≤ max 0 (s.sourceWidth * -s.ratioX) ∧
    min 0 (s.sourceHeight * -s.ratioY) ≤ (move s e).top ∧
    (move s e).top ≤ max 0 (s.sourceHeight * -s.ratioY) := by
  have hxc : max (min (e.pageX - s.offset.left) s.sourceWidth) 0 =
      clampQ (e.pageX - s.offset.left) 0 s.sourceWidth := maxmin_eq_clampQ _ _ hw
  have hyc : max (min (e.pageY - s.offset.top) s.sourceHeight) 0 =
      clampQ (e.pageY - s.offset.top) 0 s.sourceHeight := maxmin_eq_clampQ _ _ hh
  have hxb := mul_neg_between (max (min (e.pageX - s.offset.left) s.sourceWidth) 0)
    s.sourceWidth s.ratioX (le_max_right _ _) (max_le (min_le_right _ _) hw)
  have hyb := mul_neg_between (max (min (e.pageY - s.offset.top) s.sourceHeight) 0)
    s.sourceHeight s.ratioY (le_max_right _ _) (max_le (min_le_right _ _) hh)
  refine ⟨?_, ?_, ?_, ?_, ?_, ?_, ?_, ?_, ?_, ?_⟩
  · show max (min (e.pageX - s.offset.left) s.sourceWidth) 0 * -s.ratioX = _
    rw [hxc]; ring
  · show max (min (e.pageY - s.offset.top) s.sourceHeight) 0 * -s.ratioY = _
    rw [hyc]; ring
  · intro hx
    rw [clampQ, max_eq_right hx, min_eq_left hw]
  · intro hx
    rw [clampQ, max_eq_left (le_trans hw hx), min_eq_right hx]
  · intro hy
    rw [clampQ, max_eq_right hy, min_eq_left hh]
  · intro hy
    rw [clampQ, max_eq_left (le_trans hh hy), min_eq_right hy]
  · exact hxb.1
  · exact hxb.2
  · exact hyb.1
  · exact hyb.2

/-- Witness for move_clamp_spec at the scenario layout and pointer
(60, 60), with every hypothesis discharged concretely. -/
theorem move_clamp_spec_witness :
    (init scenarioLayout initialZoomState = init scenarioLayout initialZoomState ∧
      (0:ℚ) ≤ (init scenarioLayout initialZoomState).sourceWidth ∧
      (0:ℚ) ≤ (init scenarioLayout initialZoomState).sourceHeight) ∧
    (move (init scenarioLayout initialZoomState) { pageX := 60, pageY := 60 }).left =
      -clampQ ((60:ℚ) - (init scenarioLayout initialZoomState).offset.left) 0
        (init scenarioLayout initialZoomState).sourceWidth *
        (init scenarioLayout initialZoomState).ratioX :=
  ⟨⟨rfl, by decide, by decide⟩,
    (move_clamp_spec scenarioLayout initialZoomState { pageX := 60, pageY := 60 }
      (init scenarioLayout initialZoomState) rfl (by decide) (by decide)).1⟩

/-- C2: init computes xRatio = (img.width - targetWidth) / sourceWidth and
yRatio analogously, where the source dimensions equal the target's when
source === target and the source's own offset dimensions otherwise; and a
second init on an unchanged layout yields the identical state (ratios and
offset included). -/
theorem init_ratios_idempotent (l : Layout) (s : ZoomState) :
    (init l s).ratioX = (l.imgWidth - l.targetOffsetWidth) / effSourceWidth l ∧
    (init l s).ratioY = (l.imgHeight - l.targetOffsetHeight) / effSourceHeight l ∧
    (init l s).sourceWidth = effSourceWidth l ∧
    (init l s).sourceHeight = effSourceHeight l ∧
    (l.sourceIsTarget = true →
      effSourceWidth l = l.targetOffsetWidth ∧ effSourceHeight l = l.targetOffsetHeight) ∧
    (l.sourceIsTarget = false →
      effSourceWidth l = l.sourceOffsetWidth ∧ effSourceHeight l = l.sourceOffsetHeight) ∧
    (init l s).offset = l.sourceOffset ∧
    init l (init l s) = init l s := by
  refine ⟨rfl, rfl, rfl, rfl, ?_, ?_, rfl, rfl⟩
  · intro h
    rw [effSourceWidth, effSourceHeight, h]
    exact ⟨if_pos rfl, if_pos rfl⟩
  · intro h
    rw [effSourceWidth, effSourceHeight, h]
    exact ⟨rfl, rfl⟩

/-- Witness for init_ratios_idempotent at the scenario layout, with the
conditional conjunct discharged at sourceIsTarget = true. -/
theorem init_ratios_idempotent_witness :
    scenarioLayout.sourceIsTarget = true ∧
    effSourceWidth scenarioLayout = scenarioLayout.targetOffsetWidth ∧
    init scenarioLayout (init scenarioLayout initialZoomState) =
      init scenarioLayout initialZoomState :=
  ⟨rfl,
    ((init_ratios_idempotent scenarioLayout initialZoomState).2.2.2.2.1 rfl).1,
    (init_ratios_idempotent scenarioLayout initialZoomState).2.2.2.2.2.2.2⟩

/-- C3: in the worked scenario (100 by 100 source at page offset (10, 10),
overlay natural size 400 by 400 at magnify 1, target also 100 by 100) init
computes xRatio = yRatio = 3, and move on a pointer at page (60, 60)
clamps the local position to (50, 50) and sets the overlay position to
left = -150px, top = -150px. -/
theorem scenario_ratio_three_move :
    (init scenarioLayout initialZoomState).ratioX = 3 ∧
    (init scenarioLayout initialZoomState).ratioY = 3 ∧
    clampQ ((60:ℚ) - (init scenarioLayout initialZoomState).offset.left) 0
      (init scenarioLayout initialZoomState).sourceWidth = 50 ∧
    clampQ ((60:ℚ) - (init scenarioLayout initialZoomState).offset.top) 0
      (init scenarioLayout initialZoomState).sourceHeight = 50 ∧
    move (init scenarioLayout initialZoomState) { pageX := 60, pageY := 60 } =
      { left := -150, top := -150 } := by
  refine ⟨?_, ?_, ?_, ?_, ?_⟩ <;>
    simp [scenarioLayout, initialZoomState, init, move, clampQ, imgDisplayWidth,
      ImgPos.mk.injEq, min_def, max_def] <;>
    norm_num

/-- C4: the zoom-image url is resolved with the precedence truthy url
option, then the descendant image data-src attribute, then its
currentSrc, then its src; when nothing yields a truthy url the binder is
a silent no-op (returns undefined before attaching the load listener or
setting img.src, so no overlay is ever created). -/
theorem url_resolution_spec (optUrl : Option String) (el : SrcElement)
    (srcElement : Option SrcElement) (u d : String) :
    (strTruthy u = true → zoomImageBind (some u) srcElement = .bound u) ∧
    (optTruthy optUrl = false → el.dataSrc = some d → strTruthy d = true →
      zoomImageBind optUrl (some el) = .bound d) ∧
    (optTruthy optUrl = false → optTruthy el.dataSrc = false →
      strTruthy el.currentSrc = true →
      zoomImageBind optUrl (some el) = .bound el.currentSrc) ∧
    (optTruthy optUrl = false → optTruthy el.dataSrc = false →
      strTruthy el.currentSrc = false → strTruthy el.src = true →
      zoomImageBind optUrl (some el) = .bound el.src) ∧
    (optTruthy optUrl = false → zoomImageBind optUrl none = .noop) ∧
    (optTruthy optUrl = false → optTruthy el.dataSrc = false →
      strTruthy el.currentSrc = false → strTruthy el.src = false →
      zoomImageBind optUrl (some el) = .noop) := by
  refine ⟨?_, ?_, ?_, ?_, ?_, ?_⟩
  · intro hu
    simp [zoomImageBind, resolveUrl, optTruthy, hu]
  · intro h0 hd htd
    simp [zoomImageBind, resolveUrl, h0, imgUrlChain, hd, jsOrStr, htd]
  · intro h0 hd hc
    have hg : strTruthy (el.dataSrc.getD "") = false := by
      cases hdc : el.dataSrc <;> simpa [hdc, optTruthy, strTruthy] using hd
    simp [zoomImageBind, resolveUrl, h0, imgUrlChain, jsOrStr, hg, hc]
  · intro h0 hd hc hsrc
    have hg : strTruthy (el.dataSrc.getD "") = false := by
      cases hdc : el.dataSrc <;> simpa [hdc, optTruthy, strTruthy] using hd
    simp [zoomImageBind, resolveUrl, h0, imgUrlChain, jsOrStr, hg, hc, hsrc]
  · intro h0
    simp [zoomImageBind, resolveUrl, h0]
  · intro h0 hd hc hsrc
    have hg : strTruthy (el.dataSrc.getD "") = false := by
      cases hdc : el.dataSrc <;> simpa [hdc, optTruthy, strTruthy] using hd
    simp [zoomImageBind, resolveUrl, h0, imgUrlChain, jsOrStr, hg, hc, hsrc]

/-- Witness for url_resolution_spec: a truthy url option wins, and with no
url option and no descendant image the binder no-ops. -/
theorem url_resolution_spec_witness :
    strTruthy "big.jpg" = true ∧
    zoomImageBind (some "big.jpg") Option.none = .bound "big.jpg" ∧
    optTruthy Option.none = false ∧
    zoomImageBind Option.none Option.none = .noop :=
  ⟨rfl,
    (url_resolution_spec (some "big.jpg") ⟨none, "", ""⟩ none "big.jpg" "").1 rfl,
    rfl,
    (url_resolution_spec none ⟨none, "", ""⟩ none "" "").2.2.2.2.1 rfl⟩

/-- Each toggle-mode click flips the clicked boolean. -/
theorem toggleClick_flips (s : ToggleState) : (toggleClick s).1.clicked = !s.clicked := by
  by_cases h : s.clicked = true <;> simp [toggleClick, h]

/-- C5: in toggle mode every click flips clicked; a click with clicked
false calls start and attaches the mousemove tracker, one with clicked
true calls stop and detaches it; the first click activates, the second
deactivates, the third re-activates, and after n clicks clicked equals
the parity of n. -/
theorem toggle_click_spec :
    (∀ s : ToggleState, s.clicked = false →
      toggleClick s =
        ({ clicked := true, trackerAttached := true, visible := true }, .started)) ∧
    (∀ s : ToggleState, s.clicked = true →
      toggleClick s =
        ({ clicked := false, trackerAttached := false, visible := false }, .stopped)) ∧
    toggleRun 1 = { clicked := true, trackerAttached := true, visible := true } ∧
    toggleRun 2 = { clicked := false, trackerAttached := false, visible := false } ∧
    toggleRun 3 = { clicked := true, trackerAttached := true, visible := true } ∧
    (∀ n : ℕ, (toggleRun n).clicked = decide (n % 2 = 1)) := by
  refine ⟨?_, ?_, by decide, by decide, by decide, ?_⟩
  · intro s h
    simp [toggleClick, h]
  · intro s h
    simp [toggleClick, h]
  · intro n
    induction n with
    | zero => decide
    | succ n ih =>
      rw [toggleRun, toggleClick_flips, ih]
      rcases Nat.mod_two_eq_zero_or_one n with h | h
      · have h2 : (n + 1) % 2 = 1 := by omega
        simp [h, h2]
      · have h2 : (n + 1) % 2 = 0 := by omega
        simp [h, h2]

/-- Witness for toggle_click_spec: the first click from the initial state
starts and attaches, and after three clicks clicked is set. -/
theorem toggle_click_spec_witness :
    toggleClick toggleInitial =
      ({ clicked := true, trackerAttached := true, visible := true }, .started) ∧
    (toggleRun 3).clicked = decide (3 % 2 = 1) :=
  ⟨toggle_click_spec.1 toggleInitial rfl, toggle_click_spec.2.2.2.2.2 3⟩

/-- C6: in click mode the first click on the source sets clicked, calls
start, attaches the mousemove tracker and arms the one-shot document
click handler without triggering it (propagation of the arming click is
stopped); while clicked is set a further source click leaves the state
untouched in the source handler and bubbles, so the one-shot document
handler performs the stop, clears clicked and detaches the tracker. -/
theorem click_mode_spec :
    dispatchSourceClick clickInitial =
      { clicked := true, trackerAttached := true, docOneShotArmed := true,
        visible := true, startCalls := 1, stopCalls := 0 } ∧
    (∀ s : ClickModeState, s.clicked = true → clickSourceHandler s = (s, false)) ∧
    (∀ s : ClickModeState, s.clicked = true → s.docOneShotArmed = true →
      dispatchSourceClick s =
        { s with visible := false, stopCalls := s.stopCalls + 1, clicked := false,
                 trackerAttached := false, docOneShotArmed := false }) ∧
    dispatchSourceClick (dispatchSourceClick clickInitial) =
      { clicked := false, trackerAttached := false, docOneShotArmed := false,
        visible := false, startCalls := 1, stopCalls := 1 } := by
  refine ⟨by decide, ?_, ?_, by decide⟩
  · intro s h
    simp [clickSourceHandler, h]
  · intro s h1 h2
    simp [dispatchSourceClick, clickSourceHandler, clickDocHandler, h1, h2]

/-- Witness for click_mode_spec: the armed state after the first click,
fed back in, is left untouched by the source handler and bubbles. -/
theorem click_mode_spec_witness :
    clickSourceHandler
      { clicked := true, trackerAttached := true, docOneShotArmed := true,
        visible := true, startCalls := 1, stopCalls := 0 } =
      ({ clicked := true, trackerAttached := true, docOneShotArmed := true,
         visible := true, startCalls := 1, stopCalls := 0 }, false) :=
  click_mode_spec.2.1
    { clicked := true, trackerAttached := true, docOneShotArmed := true,
      visible := true, startCalls := 1, stopCalls := 0 } rfl

/-- C7: with the touch flag on, touch handling is additive except in the
click and toggle trigger modes, whose touchstart handler returns before
calling start or stop; in the other modes touchstart toggles start/stop
via touched, touchmove calls move while touched, and touchend forces stop
when touched. -/
theorem touch_fallback_spec :
    (∀ (m : Mode) (s : TouchState), m = .click ∨ m = .toggle → touchstart m s = s) ∧
    (∀ (m : Mode) (s : TouchState), ¬(m = .click ∨ m = .toggle) → s.touched = false →
      touchstart m s =
        { s with touched := true, visible := true, startCalls := s.startCalls + 1 }) ∧
    (∀ (m : Mode) (s : TouchState), ¬(m = .click ∨ m = .toggle) → s.touched = true →
      touchstart m s =
        { s with touched := false, visible := false, stopCalls := s.stopCalls + 1 }) ∧
    (∀ s : TouchState, s.touched = true →
      touchmove s = { s with moveCalls := s.moveCalls + 1 }) ∧
    (∀ s : TouchState, s.touched = true →
      touchend s =
        { s with touched := false, visible := false, stopCalls := s.stopCalls + 1 }) := by
  refine ⟨?_, ?_, ?_, ?_, ?_⟩
  · intro m s h
    simp [touchstart, h]
  · intro m s h ht
    simp [touchstart, h, ht]
  · intro m s h ht
    simp [touchstart, h, ht]
  · intro s ht
    simp [touchmove, ht]
  · intro s ht
    simp [touchend, ht]

/-- Witness for touch_fallback_spec: touchstart is suppressed in click
mode, and starts from an untouched state in mouseover mode. -/
theorem touch_fallback_spec_witness :
    touchstart Mode.click
      { touched := false, clicked := false, visible := false,
        startCalls := 0, stopCalls := 0, moveCalls := 0 } =
      { touched := false, clicked := false, visible := false,
        startCalls := 0, stopCalls := 0, moveCalls := 0 } ∧
    touchstart Mode.mouseover
      { touched := false, clicked := false, visible := false,
        startCalls := 0, stopCalls := 0, moveCalls := 0 } =
      { touched := true, clicked := false, visible := true,
        startCalls := 1, stopCalls := 0, moveCalls := 0 } :=
  ⟨touch_fallback_spec.1 Mode.click
      { touched := false, clicked := false, visible := false,
        startCalls := 0, stopCalls := 0, moveCalls := 0 } (Or.inl rfl),
    touch_fallback_spec.2.1 Mode.mouseover
      { touched := false, clicked := false, visible := false,
        startCalls := 0, stopCalls := 0, moveCalls := 0 } (by simp) rfl⟩

/-- C8, evaluated at the failing input: a target (=== source) whose
pre-setup inline style is position = "" and overflow = "", with computed
position "static". After setup the inline style is relative/hidden; the
destroy path then assigns the CURRENT inline style of the event target,
so it writes back relative/hidden, not the pre-setup values — no capture
ever happened. (In the real code destroy is worse still: it references the
undefined jQuery object before the assignments, which raises, and in
part_000 destroy is never attached to any trigger.) -/
theorem destroy_restore_fails_on_code :
    setupTargetStyle "static" { position := "", overflow := "" } =
      { position := "relative", overflow := "hidden" } ∧
    destroyRestore (setupTargetStyle "static" { position := "", overflow := "" })
        (setupTargetStyle "static" { position := "", overflow := "" }) =
      { position := "relative", overflow := "hidden" } ∧
    destroyRestore (setupTargetStyle "static" { position := "", overflow := "" })
        (setupTargetStyle "static" { position := "", overflow := "" }) ≠
      { position := "", overflow := "" } := by
  refine ⟨by decide, by decide, by decide⟩

/-- The opacity trajectory is unchanged by the unhide step; fadeToShown
always yields a visible element. -/
theorem fadeToShown_visible (el : ElemVis) :
    (fadeToShown el).displayNone = false ∧ (fadeToShown el).opacity = el.opacity := by
  by_cases h : el.displayNone = true <;> simp [fadeToShown, h]

/-- C9: fadeTo makes a hidden element visible before animating, the
animation interpolates opacity linearly from the start value to the
target over the duration, completion hides the element exactly when the
target opacity is 0 and then invokes the callback when provided; the
sequence fade-in then fade-out (each run to completion) ends hidden at
opacity 0, and the reverse sequence ends visible at opacity 1. -/
theorem fadeTo_spec :
    (∀ el : ElemVis,
      (fadeToShown el).displayNone = false ∧ (fadeToShown el).opacity = el.opacity) ∧
    (∀ startOp targetOp d : ℚ, d ≠ 0 →
      fadeOpacityAt startOp targetOp d 0 = startOp ∧
      fadeOpacityAt startOp targetOp d d = targetOp) ∧
    (∀ startOp targetOp d a b t1 t2 : ℚ, a + b = 1 →
      fadeOpacityAt startOp targetOp d (a * t1 + b * t2) =
        a * fadeOpacityAt startOp targetOp d t1 +
          b * fadeOpacityAt startOp targetOp d t2) ∧
    (∀ (el : ElemVis) (op : ℚ) (cb : Bool),
      (fadeToSettle el op cb).el.opacity = op ∧
      (fadeToSettle el op cb).el.displayNone = decide (op = 0) ∧
      (fadeToSettle el op cb).callbackInvoked = cb) ∧
    (∀ (el : ElemVis) (cb1 cb2 : Bool),
      (fadeToSettle (fadeToSettle el 1 cb1).el 0 cb2).el =
        { displayNone := true, opacity := 0 } ∧
      (fadeToSettle (fadeToSettle el 0 cb1).el 1 cb2).el =
        { displayNone := false, opacity := 1 }) := by
  refine ⟨fadeToShown_visible, ?_, ?_, ?_, ?_⟩
  · intro startOp targetOp d hd
    constructor
    · simp [fadeOpacityAt]
    · field_simp [fadeOpacityAt]
  · intro startOp targetOp d a b t1 t2 hab
    simp only [fadeOpacityAt, div_eq_mul_inv]
    linear_combination (-startOp) * hab
  · intro el op cb
    refine ⟨?_, ?_, rfl⟩
    · by_cases h : op = 0 <;> simp [fadeToSettle, h]
    · by_cases h : op = 0 <;> simp [fadeToSettle, fadeToShown, h] <;>
        by_cases h2 : el.displayNone = true <;> simp [h2]
  · intro el cb1 cb2
    constructor <;>
      by_cases h2 : el.displayNone = true <;>
        simp [fadeToSettle, fadeToShown, h2]

/-- Witness for fadeTo_spec: endpoints of the linear trajectory at
duration 120 and the affine-combination law at a + b = 1. -/
theorem fadeTo_spec_witness :
    ((120:ℚ) ≠ 0 ∧
      fadeOpacityAt 0 1 120 0 = 0 ∧ fadeOpacityAt 0 1 120 120 = 1) ∧
    ((1:ℚ)/2 + 1/2 = 1 ∧
      fadeOpacityAt 0 1 120 ((1:ℚ)/2 * 0 + (1:ℚ)/2 * 120) =
        (1:ℚ)/2 * fadeOpacityAt 0 1 120 0 + (1:ℚ)/2 * fadeOpacityAt 0 1 120 120) :=
  ⟨⟨by norm_num,
      (fadeTo_spec.2.1 0 1 120 (by norm_num)).1,
      (fadeTo_spec.2.1 0 1 120 (by norm_num)).2⟩,
    ⟨by norm_num,
      fadeTo_spec.2.2.1 0 1 120 ((1:ℚ)/2) ((1:ℚ)/2) 0 120 (by norm_num)⟩⟩

/-- C10: init divides by the selected source width and height with no
guard; the checked variant initChecked, which mirrors the arithmetic of
init step by step, succeeds and agrees with init exactly when both
divisors are nonzero, hence (for the nonnegative dimensions that
offsetWidth/offsetHeight report) exactly when the source layout
dimensions are strictly positive. move performs no division at all, so
under that precondition no arithmetic step of init or move has a zero
divisor. -/
theorem init_division_safety (l : Layout) (s : ZoomState) :
    (0 < effSourceWidth l → 0 < effSourceHeight l →
      initChecked l = some (init l s)) ∧
    ((initChecked l).isSome = true ↔
      (effSourceWidth l ≠ 0 ∧ effSourceHeight l ≠ 0)) ∧
    (0 ≤ effSourceWidth l → 0 ≤ effSourceHeight l →
      ((initChecked l).isSome = true ↔
        (0 < effSourceWidth l ∧ 0 < effSourceHeight l))) := by
  have hinit : initChecked l =
      if effSourceWidth l = 0 then none
      else if effSourceHeight l = 0 then none
      else some (init l s) := by
    simp only [initChecked, init, effSourceWidth, effSourceHeight]
  refine ⟨?_, ?_, ?_⟩
  · intro hw hh
    rw [hinit, if_neg (ne_of_gt hw), if_neg (ne_of_gt hh)]
  · rw [hinit]
    constructor
    · intro h
      by_cases h1 : effSourceWidth l = 0
      · simp [h1] at h
      · by_cases h2 : effSourceHeight l = 0
        · simp [h1, h2] at h
        · exact ⟨h1, h2⟩
    · rintro ⟨h1, h2⟩
      simp [h1, h2]
  · intro hw hh
    rw [hinit]
    constructor
    · intro h
      by_cases h1 : effSourceWidth l = 0
      · simp [h1] at h
      · by_cases h2 : effSourceHeight l = 0
        · simp [h1, h2] at h
        · exact ⟨lt_of_le_of_ne hw (Ne.symm h1), lt_of_le_of_ne hh (Ne.symm h2)⟩
    · rintro ⟨h1, h2⟩
      simp [ne_of_gt h1, ne_of_gt h2]

/-- Witness for init_division_safety at the scenario layout, whose source
dimensions are 100 by 100. -/
theorem init_division_safety_witness :
    ((0:ℚ) < effSourceWidth scenarioLayout ∧ (0:ℚ) < effSourceHeight scenarioLayout) ∧
    initChecked scenarioLayout = some (init scenarioLayout initialZoomState) :=
  ⟨⟨by decide, by decide⟩,
    (init_division_safety scenarioLayout initialZoomState).1 (by decide) (by decide)⟩

end Zoom
